import Mathlib

/-!
Verification of the helena repository's argparser core: a shallow embedding of
the ownership-transferring dynamic array (`owned_array.c`), the bounded string
concatenation helper (`hx_strcat`), and the description registry / dispatcher /
subcommand scanner (`argparser.c`), together with theorems settling the frozen
claims about them.

Machine integers (`int`, `size_t`) are embedded as `Nat`/`Int`; all values
reached by the modelled programs stay far below any overflow boundary, and
signed parameters that the code range-checks (the `index` of
`owned_array_copy`) are embedded as `Int`.  Raw memory is embedded as
`List Nat` (one `Nat` per byte), with a heap allocation's length standing for
its allocated size; a read or write outside the allocation is undefined
behavior in C and is represented by `none` in an `Option`-valued result.
-/

/-! ## Dynamic element store (`src/lib/argparser/src/owned_array.c`)

`struct OwnedArray { void *head; int capacity; int element_size; int count; }`.
`head` is a `void *`: `none` models `NULL`, and `some bytes` models an
allocation whose size in bytes is `bytes.length`. -/

structure OwnedArray where
  head : Option (List Nat)
  capacity : Nat
  element_size : Nat
  count : Nat
deriving DecidableEq, Repr

/-- Models `realloc(head, size)`: the first `min(old size, size)` bytes are
preserved and any newly available bytes are indeterminate (embedded as `0`;
no theorem below depends on their value). -/
def realloc (head : Option (List Nat)) (size : Nat) : List Nat :=
  ((head.getD []).take size) ++ List.replicate (size - (head.getD []).length) 0

/-- Models `memmove(buffer + offset, source, source.length)` into an allocation
of `buffer.length` bytes.  A write past the end of the allocation is undefined
behavior (`none`). -/
def memmove_write (buffer : List Nat) (offset : Nat) (source : List Nat) :
    Option (List Nat) :=
  if offset + source.length ≤ buffer.length then
    some (buffer.take offset ++ source ++ buffer.drop (offset + source.length))
  else none

/-- `grow_on_overflow` (owned_array.c:25-28): if `new_count` exceeds the
capacity, the capacity becomes 4 when it was 0 and doubles otherwise.  Only
the `capacity` field changes; no storage is touched here. -/
def grow_on_overflow (array : OwnedArray) (new_count : Nat) : OwnedArray :=
  if new_count ≤ array.capacity then array
  else { array with capacity := if array.capacity = 0 then 4 else array.capacity * 2 }

/-- `owned_array_init` (owned_array.c:30-36) on a non-`NULL` target. -/
def owned_array_init (element_size : Nat) : OwnedArray :=
  { head := none, capacity := 0, element_size := element_size, count := 0 }

/-- `owned_array_append` (owned_array.c:38-46).  The element argument is the
`element_size` bytes behind the `void *element` pointer (the C `free(element)`
releases the source; the model simply consumes the list).  Faithful to the
source: the backing storage is `realloc`ed to `new_count` BYTES (line 41), and
the element's bytes are `memmove`d to byte offset `new_count * element_size`
(line 42); `none` marks the resulting out-of-bounds write (undefined
behavior). -/
def owned_array_append (array : OwnedArray) (element : List Nat) :
    Option OwnedArray :=
  if element.length ≠ array.element_size then none
  else
    match memmove_write (realloc (grow_on_overflow array (array.count + 1)).head
        (array.count + 1)) ((array.count + 1) * array.element_size) element with
    | none => none
    | some head =>
      some { grow_on_overflow array (array.count + 1) with
             head := some head, count := array.count + 1 }

/-- `owned_array_copy` (owned_array.c:48-53).  The guard is
`array->count == 0 || index < 0 || index > array->count - 1`
(`is_out_of_range`); when it holds the function returns with the destination
untouched.  Otherwise `memcpy(destination, &array->head[index], element_size)`
runs; since `head` has type `void *`, `&head[index]` is `index` BYTES past
`head` (GNU `void *` arithmetic, `sizeof(void) = 1`), and a read past the
allocation or a write past the destination is undefined behavior (`none`). -/
def owned_array_copy (array : OwnedArray) (destination : List Nat)
    (index : Int) : Option (List Nat) :=
  if array.count = 0 ∨ index < 0 ∨ index > (array.count : Int) - 1 then
    some destination
  else
    match array.head with
    | none => none
    | some buffer =>
      if index.toNat + array.element_size ≤ buffer.length ∧
          array.element_size ≤ destination.length then
        some ((buffer.drop index.toNat).take array.element_size ++
              destination.drop array.element_size)
      else none

/-! ## Bounded concatenation helper (`src/unnamed/part_000`, `hx_strcat`) -/

/-- `enum ConcatenationStrategy` from `hx_string.h`. -/
inductive ConcatenationStrategy where
  | FILL
  | TRUNCATE
  | SEQUENTIAL
deriving DecidableEq, Repr

/-- `ENAMETOOLONG` from `<errno.h>` (36 on Linux). -/
def ENAMETOOLONG : Nat := 36

/-- Result of a call to `hx_strcat`: a normal return (with the destination's
contents as a C string and the returned `size_t`), a process abort via
`exit(code)`, or undefined behavior (an out-of-bounds write). -/
inductive HxResult where
  | ok (destination : String) (returned : Nat)
  | exited (code : Nat)
  | ub
deriving DecidableEq, Repr

/-- `hx_strcat` (part_000:25-54).  The destination is embedded as its C-string
contents (characters before the terminator) plus the allocated
`destination_size`.  Faithful to the source: an empty source returns 0
immediately; a non-`TRUNCATE` strategy with
`destination_size < strlen(destination) + strlen(source) + 1` aborts with
`exit(ENAMETOOLONG)`; `SEQUENTIAL` runs
`strncat(destination, source, destination_size) - destination`, which is 0
because `strncat` returns its first argument; the remaining (glibc) branch runs
`strcpy(&destination[destination_length + 1], source)`, which writes the source
one byte past the current terminator — the destination is unchanged as a C
string — and returns `destination_length + source_length + 1`.  That `strcpy`
needs `destination_length + 1 + source_length + 1` bytes; past
`destination_size` it is an out-of-bounds write (`HxResult.ub`). -/
def hx_strcat (destination : String) (destination_size : Nat) (source : String)
    (strategy : ConcatenationStrategy) : HxResult :=
  if source.length = 0 then .ok destination 0
  else if strategy ≠ ConcatenationStrategy.TRUNCATE ∧
      destination_size < destination.length + (source.length + 1) then
    .exited ENAMETOOLONG
  else if strategy = ConcatenationStrategy.SEQUENTIAL then
    .ok (destination ++ source.take destination_size) 0
  else if destination.length + 1 + source.length + 1 ≤ destination_size then
    .ok destination (destination.length + source.length + 1)
  else .ub

/-! ## Argument parser (`src/unnamed/part_001`, `argparser.c`)

C strings reached through pointers (`argv[0]`, `Description.name`,
`Description.overview`) are embedded as pointer values (`Nat` addresses): the
dispatcher compares them by pointer identity (`program_name != a_description->
name`).  A heap `mem : Nat → String` gives the text behind each address, used
only when `help` prints.  The option tokens of the command line (`argv[1..]`)
are embedded textually as `List String`, since the flag scanner inspects their
characters. -/

/-- `struct Option` from `argparser.h` (named `COption` here because `Option`
is taken by Lean's core type). -/
structure COption where
  long_name : String
  short_name : Char
  documentation : String
deriving DecidableEq, Repr

/-- `struct Description` from `argparser.h`; the four pointer-typed fields are
embedded as addresses. -/
structure Description where
  name : Nat
  overview : Nat
  option_count : Int
  options : Nat
  subcommand_count : Int
  subcommands : Nat
deriving DecidableEq, Repr

/-- `enum DefaultExecutionStatus` from `argparser.h`. -/
inductive DefaultExecutionStatus where
  | EXECUTED
  | UNDESCRIBED
  | NONE
deriving DecidableEq, Repr

/-- `default_options` (part_001:62-64): the single built-in option. -/
def default_options : List COption :=
  [{ long_name := "help", short_name := 'h',
     documentation := "Provide assistance on how to use the program." }]

/-- A `char *` local that starts out `NULL` (the dispatcher's `optstring`). -/
inductive CString where
  | null
  | str (s : String)
deriving DecidableEq, Repr

/-- One iteration of the `optstring`-building loop in `argparser_getopt`
(part_001:130-134).  When `optstring` is still `NULL` the code runs
`optstring = strcpy(optstring, &argparser_option.short_name)`, a write through
a null pointer: undefined behavior (`none`).  Otherwise it runs
`strcat(optstring, &argparser_option.short_name)`; modelled charitably as
appending the one short-name character, although the source too is undefined
there (`&short_name` is not a terminated string and no buffer backs
`optstring`). -/
def optstring_append (optstring : CString) (short_name : Char) :
    Option CString :=
  match optstring with
  | .null => none
  | .str s => some (.str (s.push short_name))

/-- The short-option specification string `argparser_getopt` (part_001:120-138)
assembles from the declared options before calling `getopt_long`: the
`optstring`-building loop, iterated over the option table. -/
def argparser_getopt_optstring (options : List COption) : Option CString :=
  options.foldlM (fun os opt => optstring_append os opt.short_name) CString.null

/-- Modelled from the spec: the stream of flag codes GNU `getopt_long` (libc,
not part of this repository) would yield for the built-in option table (long
`"help"`, short `'h'`, `no_argument`): `'h'` (code 104) for each `-h` or
`--help` token, the unrecognized-option code `'?'` (63) for any other token
starting with `'-'`, nothing for non-option tokens, and `-1` (the end of the
list here) once the tokens are exhausted.  Reached only through
`argparser_getopt_stream` below, which gates it behind the undefined behavior
of the repository's own `argparser_getopt`. -/
def argparser_getopt_flags (args : List String) : List Nat :=
  args.filterMap (fun token =>
    if token = "-h" ∨ token = "--help" then some 104
    else if token.toList.head? = some (Char.ofNat 45) then some 63  -- 45 is the code of the dash
    else none)

/-- `argparser_getopt` (part_001:120-138), as `execute_default`'s `while`
condition calls it.  Before any scanning, the function runs its
`optstring`-building loop (`argparser_getopt_optstring`): for a non-empty
option table the very first iteration executes `strcpy` through the `NULL`
`optstring` (part_001:131) — undefined behavior, modelled as `none`, so no
flag is ever yielded.  Were a specification string ever assembled (starting
from `NULL` it cannot be), the call would go on to pass the just-`free`d
`gnu_options` to `getopt_long` (part_001:136-137, a further defect the model
never reaches) and the libc scan would yield `argparser_getopt_flags`. -/
def argparser_getopt_stream (options : List COption) (args : List String) :
    Option (List Nat) :=
  match argparser_getopt_optstring options with
  | none => none
  | some _ => some (argparser_getopt_flags args)

/-- `help` (part_001:109-111): `printf("OVERVIEW: %s\nUSAGE: %s", overview,
name)`.  The produced standard output, with the heap giving the text behind
the two pointers. -/
def help (mem : Nat → String) (description : Description) : String :=
  "OVERVIEW: " ++ mem description.overview ++ "\nUSAGE: " ++ mem description.name

/-- `run_default_for_option_at_index` (part_001:113-118): a `switch` whose only
case, 0, prints help; any other index falls through with no output. -/
def run_default_for_option_at_index (mem : Nat → String)
    (description : Description) (option_index : Nat) : String :=
  match option_index with
  | 0 => help mem description
  | _ => ""

/-- The description-lookup loop of `execute_default` (part_001:213-220): scan
every stored description, and each time `program_name` equals the
description's `name` pointer overwrite `the_description` with it (there is no
`break`, so a later match replaces an earlier one).  The loop's reads go
through `owned_array_copy`; they are rendered here by the element-at-index
contract its header documents, which the byte-level implementation analyzed
above does not meet (it reads at byte offset `index` of an undersized
allocation).  No theorem relies on this rendering: the dispatcher's first
`argparser_getopt` call already has undefined behavior, so this loop is
unreachable in the program (see `execute_default`). -/
def scan_descriptions (program_name : Nat) (descriptions : List Description) :
    Option Description :=
  descriptions.foldl
    (fun the_description a_description =>
      if program_name ≠ a_description.name then the_description
      else some a_description)
    none

/-- The `while`/`for` loops of `execute_default` (part_001:202-226), given the
stream of flags `argparser_getopt` would have to yield; unreachable in the
program (the first `argparser_getopt` call never returns a flag), retained as
the rendering of the loop body.  The inner `for` visits the single
built-in option (`'h'` = 104): a non-matching flag `continue`s to the next
scanner result; on a match, a `NULL` registry returns `UNDESCRIBED`, an
unmatched program name returns `UNDESCRIBED`, and otherwise the built-in
behavior for option index 0 runs and `EXECUTED` is returned.  An exhausted
stream returns `NONE`.  The second component is the produced standard
output. -/
def execute_default_loop (mem : Nat → String) (program_name : Nat)
    (descriptions : Option (List Description)) :
    List Nat → DefaultExecutionStatus × String
  | [] => (.NONE, "")
  | flag :: rest =>
    if flag ≠ 104 then execute_default_loop mem program_name descriptions rest
    else
      match descriptions with
      | none => (.UNDESCRIBED, "")
      | some stored =>
        match scan_descriptions program_name stored with
        | none => (.UNDESCRIBED, "")
        | some the_description =>
          (.EXECUTED, run_default_for_option_at_index mem the_description 0)

/-- `execute_default` (part_001:201-227).  `argv0` is the `argv[0]` pointer,
`args` the textual tokens `argv[1..]`, `descriptions` the process-wide
registry (`none` models the `NULL` it holds before any `describe` call), and
`mem` the heap behind the string pointers.  The very first evaluation of the
`while` condition calls `argparser_getopt(argc, argv, default_option_count,
default_options)`, whose `optstring` loop executes `strcpy` through `NULL`
(part_001:131) before anything else in the dispatcher runs — before any flag
is observed, before the `descriptions == NULL` check, before any `return`.
Every call therefore has undefined behavior (`none`); the `some` branch,
rendering the rest of the function, is unreachable. -/
def execute_default (mem : Nat → String) (argv0 : Nat) (args : List String)
    (descriptions : Option (List Description)) :
    Option (DefaultExecutionStatus × String) :=
  match argparser_getopt_stream default_options args with
  | none => none
  | some flags => some (execute_default_loop mem argv0 descriptions flags)

/-! ## Subcommand scanner (`src/unnamed/part_001`, `subcommand`) -/

/-- The buffer-filling loop of `trim_start` (part_001:150-158): while the
buffer is unallocated (`none`, the C `NULL`), space characters are skipped and
the first non-space character allocates it; from then on every character is
appended. -/
def trim_start_go (buffer : Option (List Char)) : List Char → Option (List Char)
  | [] => buffer
  | character :: rest =>
    match buffer with
    | none =>
      if character = ' ' then trim_start_go none rest
      else trim_start_go (some [character]) rest
    | some b => trim_start_go (some (b ++ [character])) rest

/-- `trim_start` (part_001:145-163).  When the loop never allocated the buffer
(the string was empty or all spaces) the function returns with the string
unchanged; otherwise the terminated buffer is `memmove`d over the string. -/
def trim_start (s : String) : String :=
  match trim_start_go none s.toList with
  | none => s
  | some b => String.mk b

/-- `first_index` (part_001:174-178): the index of the first occurrence of the
character in the string (`strchr`), or a negative integer when absent. -/
def first_index (s : String) (character : Char) : Int :=
  match s.toList.findIdx? (fun c => c = character) with
  | none => -1
  | some i => (i : Int)

/-- The scanning loop of `subcommand` (part_001:232-247) over the tokens from
index 1, carrying the current index and `last_option_index`.  Each token is
trimmed in place; an empty token is skipped; a token whose first character is
`'-'` records its index and continues; a token at `last_option_index + 1` is
consumed as that option's value (clearing the record) and skipped; the first
remaining token is returned. -/
def subcommand_go : List String → Int → Int → Option String
  | [], _, _ => none
  | argument :: rest, index, last_option_index =>
    let trimmed := trim_start argument
    if trimmed.length = 0 then subcommand_go rest (index + 1) last_option_index
    else if first_index trimmed '-' = 0 then subcommand_go rest (index + 1) index
    else if last_option_index ≥ 0 ∧ index = last_option_index + 1 then
      subcommand_go rest (index + 1) (-1)
    else some trimmed

/-- `subcommand` (part_001:229-249): `NULL` (here `none`) when `argc == 1` or
no token qualifies.  `argv` is the full argument vector, `argv[0]`
included. -/
def subcommand (argv : List String) : Option String :=
  if argv.length = 1 then none
  else subcommand_go (argv.drop 1) 1 (-1)

/-! ## Claims -/

/-- C1: the claim says that elements appended via `owned_array_append` are
retrievable in insertion order via `owned_array_copy`.  Evaluating the
embedding at the repository's own test input (`appends` in the owned-array
test file: `element_size = sizeof(int) = 4`, appending the int `2`) shows the
very first append already performs an out-of-bounds write — the storage is
`realloc`ed to `new_count` bytes while the element is written at byte offset
`new_count * element_size` — so no appended value is ever retrievable. -/
theorem owned_array_append_first_append_out_of_bounds :
    owned_array_append (owned_array_init 4) [2, 0, 0, 0] = none := by decide

/-- C4: for every store and destination, `owned_array_copy` with a negative
index or an index at or beyond `count` returns with the destination unchanged
and signals no error. -/
theorem owned_array_copy_out_of_range (array : OwnedArray)
    (destination : List Nat) (index : Int)
    (h : index < 0 ∨ (array.count : Int) ≤ index) :
    owned_array_copy array destination index = some destination := by
  have hc : array.count = 0 ∨ index < 0 ∨ index > (array.count : Int) - 1 := by
    rcases h with h | h
    · exact Or.inr (Or.inl h)
    · exact Or.inr (Or.inr (by omega))
  rw [owned_array_copy, if_pos hc]

theorem owned_array_copy_out_of_range_witness :
    owned_array_copy (owned_array_init 4) [7, 7] 3 = some [7, 7] :=
  owned_array_copy_out_of_range (owned_array_init 4) [7, 7] 3 (by decide)

/-- C5: the claim says the backing storage is grown under the double-or-4
policy so that it can hold all `count` elements.  On the first append to a
store of 4-byte elements the `capacity` field does become 4, but the storage
is `realloc`ed to `new_count = 1` byte — smaller than even a single element —
so the backing storage never follows the capacity policy. -/
theorem grow_realloc_storage_mismatch :
    (grow_on_overflow (owned_array_init 4) 1).capacity = 4 ∧
    (realloc (grow_on_overflow (owned_array_init 4) 1).head 1).length = 1 ∧
    (realloc (grow_on_overflow (owned_array_init 4) 1).head 1).length <
      1 * (owned_array_init 4).element_size := by decide

/-- C6: the claim says that calling `execute_default` before any `describe`,
with `--help` present, returns `UNDESCRIBED` immediately.  The code never
gets there: the `descriptions == NULL` check (part_001:211) sits inside the
`while` body, but the `while` condition's first evaluation already calls
`argparser_getopt`, whose first loop iteration is `strcpy` through the `NULL`
`optstring` (part_001:131) — undefined behavior before any flag is observed,
so no `UNDESCRIBED` (nor any) status is returned. -/
theorem execute_default_undescribed_unreachable :
    execute_default (fun _ => "") 0 ["--help"] none = none := by decide

/-- C7: the claim says a command line with no `-h`/`--help` yields `NONE`.
The scan never completes because it never starts: the first
`argparser_getopt` call hits the `NULL`-`optstring` `strcpy` (part_001:131)
regardless of the tokens, so at the claim's example (tokens `["build"]`,
description registered or not) `execute_default` has undefined behavior
instead of reaching its `return NONE` (part_001:226). -/
theorem execute_default_none_unreachable :
    execute_default (fun _ => "") 0 ["build"] (some [⟨0, 1, 0, 0, 0, 0⟩]) =
      none := by decide

/-- C10: the claim says a built-in flag with at least one registered
description, none of whose names equals `argv[0]`, makes `execute_default`
return `UNDESCRIBED`.  The dispatcher dies in its first `argparser_getopt`
call (the `NULL`-`optstring` `strcpy`, part_001:131) before observing any flag
or comparing any name — and the lookup loop it would then run reads the store
through `owned_array_copy`, whose byte-level behavior returns bytes the buggy
appends never wrote — so no status is returned at all. -/
theorem execute_default_unmatched_unreachable :
    execute_default (fun _ => "") 9 ["-h"] (some [⟨1, 2, 0, 0, 0, 0⟩]) =
      none := by decide

/-- C2: the claim says that with a description registered under `argv[0]`'s
name and `--help` present, `execute_default` prints that description's
overview followed by a usage banner derived from its name and returns
`EXECUTED`.  It never does: the first `argparser_getopt` call executes
`strcpy` through the `NULL` `optstring` (part_001:131) before any flag is
yielded, so the built-in help behavior cannot run and no `EXECUTED` status is
returned (moreover the registered description could only have reached the
store through `owned_array_append`, itself an out-of-bounds write, and the
dispatcher's `owned_array_copy` reads at part_001:216-217 would return bytes
the append never wrote). -/
theorem execute_default_executed_unreachable :
    execute_default (fun n => if n = 10 then "demo" else "") 10 ["--help"]
      (some [⟨10, 20, 0, 0, 0, 0⟩]) = none := by decide

/-- C3: the claim says every token that trims to the empty string is skipped
by the subcommand scanner.  For an all-space token `trim_start`'s buffer is
never allocated, so the token is returned unchanged — still three spaces long,
not starting with a dash — and the scanner returns it as the subcommand
instead of reporting that none exists. -/
theorem subcommand_space_token :
    subcommand ["prog", "   "] = some "   " := by decide

/-- C8: `hx_strcat` with any strategy other than `TRUNCATE` and a non-empty
source whose characters plus terminator exceed the destination's remaining
space aborts the process with exit code `ENAMETOOLONG`; with the `TRUNCATE`
strategy no `exit` is ever reached. -/
theorem hx_strcat_abort_policy :
    (∀ (destination : String) (destination_size : Nat) (source : String)
        (strategy : ConcatenationStrategy),
        strategy ≠ ConcatenationStrategy.TRUNCATE →
        source.length ≠ 0 →
        destination_size < destination.length + (source.length + 1) →
        hx_strcat destination destination_size source strategy =
          HxResult.exited ENAMETOOLONG) ∧
    (∀ (destination : String) (destination_size : Nat) (source : String)
        (code : Nat),
        hx_strcat destination destination_size source
          ConcatenationStrategy.TRUNCATE ≠ HxResult.exited code) := by
  constructor
  · intro destination destination_size source strategy h1 h2 h3
    rw [hx_strcat, if_neg h2, if_pos ⟨h1, h3⟩]
  · intro destination destination_size source code h
    rw [hx_strcat] at h
    by_cases hs : source.length = 0
    · rw [if_pos hs] at h; cases h
    · rw [if_neg hs] at h
      have hguard : ¬(ConcatenationStrategy.TRUNCATE ≠ ConcatenationStrategy.TRUNCATE ∧
          destination_size < destination.length + (source.length + 1)) :=
        fun hc => hc.1 rfl
      rw [if_neg hguard] at h
      rw [if_neg (by decide : ¬(ConcatenationStrategy.TRUNCATE =
        ConcatenationStrategy.SEQUENTIAL))] at h
      by_cases hfit : destination.length + 1 + source.length + 1 ≤ destination_size
      · rw [if_pos hfit] at h; cases h
      · rw [if_neg hfit] at h; cases h

theorem hx_strcat_abort_policy_witness :
    hx_strcat "ab" 3 "cde" ConcatenationStrategy.FILL =
      HxResult.exited ENAMETOOLONG ∧
    hx_strcat "ab" 3 "cde" ConcatenationStrategy.TRUNCATE ≠
      HxResult.exited ENAMETOOLONG :=
  ⟨hx_strcat_abort_policy.1 "ab" 3 "cde" ConcatenationStrategy.FILL
      (by decide) (by decide) (by decide),
   hx_strcat_abort_policy.2 "ab" 3 "cde" ENAMETOOLONG⟩

/-- C9: the claim says the dispatcher assembles a short-option specification
string of exactly one character per declared option.  Evaluating the
optstring-building loop of `argparser_getopt` at the built-in option table it
is always called with shows the loop never assembles any string: `optstring`
is initialized to `NULL` and the first iteration executes
`optstring = strcpy(optstring, &argparser_option.short_name)`, a write through
a null pointer (undefined behavior, a crash in practice). -/
theorem argparser_getopt_optstring_null_strcpy :
    argparser_getopt_optstring default_options = none := by decide
